import Mathlib

/-!
# catalog-connector-client: dispatch and response validation

A shallow embedding of `main.go`: `ValidateAssetResponse`, `handleRead`,
`handleWrite` and the `RunE` closure of `RootCmd`.

Every function of an imported package (`json`, `io`, `os`, `validate`,
`dcclient`) is a field of an environment record, with Go's `(value, error)`
result written as a pair whose second component is `none` for a nil error.
Each function of the embedding returns, next to its Go result, the list of
calls it made to the outside world, in program order.
-/

namespace CatalogConnectorClient

/-- Types declared by imported packages; the program only moves their values around. -/
structure Sig where
  /-- Go `[]byte`. -/
  Bytes : Type
  /-- Go `*os.File`. -/
  File : Type
  /-- Go `datacatalog.GetAssetRequest`. -/
  GetAssetRequest : Type
  /-- Go `datacatalog.CreateAssetRequest`. -/
  CreateAssetRequest : Type
  /-- Go `*datacatalog.GetAssetResponse`. -/
  GetAssetResponse : Type
  /-- Go `*datacatalog.CreateAssetResponse`. -/
  CreateAssetResponse : Type
  /-- Go `*field.Error`, one schema violation. -/
  FieldError : Type

/-- Go `error` values that are not nil. -/
inductive Err (S : Sig) where
  /-- An error value built by an imported package. -/
  | external (description : String)
  /-- The value of `errors.New(message)`. -/
  | new (message : String)
  /-- The value of `errors.Wrap(cause, message)` for a non-nil `cause`. -/
  | wrap (cause : Err S) (message : String)
  /-- The value of `apierrors.NewInvalid(schema.GroupKind{group, kind}, name, errs)`. -/
  | invalid (group kind name : String) (errs : List S.FieldError)

/-- Whether an error is the aggregate built by `apierrors.NewInvalid`. -/
def Err.isInvalid {S : Sig} : Err S → Bool
  | .invalid _ _ _ _ => true
  | _ => false

/-- The values `ValidateAssetResponse` receives in its `interface{}` argument. -/
inductive Response (S : Sig) where
  | getAsset (r : S.GetAssetResponse)
  | createAsset (r : S.CreateAssetResponse)

/-- One call to the outside world. -/
inductive Event (S : Sig) where
  /-- A call `dcclient.NewDataCatalog(providerName, url)`. -/
  | newDataCatalog (providerName url : String)
  /-- A call `os.Open(name)`. -/
  | osOpen (name : String)
  /-- A call `io.ReadAll(file)`. -/
  | readAll (file : S.File)
  /-- A call `json.Unmarshal(data, &dataCatalogReq)`. -/
  | unmarshal (data : S.Bytes)
  /-- A call `catalog.GetAssetInfo(req, creds)`. -/
  | getAssetInfo (req : S.GetAssetRequest) (creds : String)
  /-- A call `catalog.CreateAsset(req, creds)`. -/
  | createAsset (req : S.CreateAssetRequest) (creds : String)
  /-- Entry into `ValidateAssetResponse(response, taxonomyFile, log)`. -/
  | validate (response : Response S) (taxonomyFile : String)
  /-- A call `json.Marshal(response)`. -/
  | marshal (response : Response S)
  /-- A call `validate.TaxonomyCheck(responseJSON, taxonomyFile)`. -/
  | taxonomyCheck (responseJSON : S.Bytes) (taxonomyFile : String)
  /-- A record `log.Info().Msg(msg)`. -/
  | logInfo (msg : String)
  /-- A record `log.Error().Err(err).Msg(msg)`. -/
  | logError (err : Err S) (msg : String)
  /-- The deferred `requestJsonFile.Close()`. -/
  | fileClose
  /-- The deferred `catalog.Close()`. -/
  | catalogClose

/-- Whether an event is a call of one of the two catalog operations. -/
def Event.isCatalogOp {S : Sig} : Event S → Bool
  | .getAssetInfo _ _ => true
  | .createAsset _ _ => true
  | _ => false

/-- Whether an event is a call of `catalog.GetAssetInfo`. -/
def Event.isGetAssetInfo {S : Sig} : Event S → Bool
  | .getAssetInfo _ _ => true
  | _ => false

/-- Whether an event is a call of `catalog.CreateAsset`. -/
def Event.isCreateAsset {S : Sig} : Event S → Bool
  | .createAsset _ _ => true
  | _ => false

/-- Whether an event belongs to the validator: its entry or one of its two outside calls. -/
def Event.isValidator {S : Sig} : Event S → Bool
  | .validate _ _ => true
  | .marshal _ => true
  | .taxonomyCheck _ _ => true
  | _ => false

/-- Whether an event is an entry into `ValidateAssetResponse`. -/
def Event.isValidate {S : Sig} : Event S → Bool
  | .validate _ _ => true
  | _ => false

/-- Whether an event is the deferred `catalog.Close()`. -/
def Event.isCatalogClose {S : Sig} : Event S → Bool
  | .catalogClose => true
  | _ => false

/-- Whether an event is the informational record with the given message. -/
def Event.isLogInfo {S : Sig} (m : String) : Event S → Bool
  | .logInfo msg => decide (msg = m)
  | _ => false

/-- The Go interface `dcclient.DataCatalog`, as far as the program calls it. -/
structure DataCatalog (S : Sig) where
  GetAssetInfo : S.GetAssetRequest → String → S.GetAssetResponse × Option (Err S)
  CreateAsset : S.CreateAssetRequest → String → S.CreateAssetResponse × Option (Err S)

/-- The imported functions the program calls. -/
structure Env (S : Sig) where
  /-- Go `dcclient.NewDataCatalog(providerName, url)`. -/
  NewDataCatalog : String → String → DataCatalog S × Option (Err S)
  /-- Go `os.Open(name)`. -/
  Open : String → S.File × Option (Err S)
  /-- Go `io.ReadAll(file)`. -/
  ReadAll : S.File → S.Bytes × Option (Err S)
  /-- Go `json.Unmarshal(data, &v)` for `v` a `datacatalog.GetAssetRequest`. -/
  UnmarshalGetAssetRequest : S.Bytes → S.GetAssetRequest × Option (Err S)
  /-- Go `json.Unmarshal(data, &v)` for `v` a `datacatalog.CreateAssetRequest`. -/
  UnmarshalCreateAssetRequest : S.Bytes → S.CreateAssetRequest × Option (Err S)
  /-- Go `json.Marshal(v)`. -/
  Marshal : Response S → S.Bytes × Option (Err S)
  /-- Go `validate.TaxonomyCheck(objectBytes, taxonomyFile)`. -/
  TaxonomyCheck : S.Bytes → String → List S.FieldError × Option (Err S)
  /-- Go conversion `string(b)`. -/
  string : S.Bytes → String

/-- The package-level variables of `main.go`. -/
structure Globals where
  requestFile : String
  requestOperation : String
  credentialPath : String
  catalogconnectorUrl : String
  /-- The field `request.operationType`. -/
  operationType : String

def DataCatalogGetAssetResponseTaxonomy : String :=
  "resources/taxonomy/datacatalog.json#/definitions/GetAssetResponse"

def DataCatalogCreateAssetResponseTaxonomy : String :=
  "resources/taxonomy/datacatalog.json#/definitions/CreateAssetResponse"

/-- Go `newDataCatalog()`. -/
def newDataCatalog {S : Sig} (g : Globals) (env : Env S) :
    (DataCatalog S × Option (Err S)) × List (Event S) :=
  let providerName := "egeria"
  (env.NewDataCatalog providerName g.catalogconnectorUrl,
    [Event.newDataCatalog providerName g.catalogconnectorUrl])

/-- Go `ValidateAssetResponse(response, taxonomyFile, log)`. -/
def ValidateAssetResponse {S : Sig} (env : Env S) (response : Response S)
    (taxonomyFile : String) : Option (Err S) × List (Event S) :=
  let t0 : List (Event S) := [Event.validate response taxonomyFile, Event.marshal response]
  let m := env.Marshal response
  match m.2 with
  | some err => (some err, t0)
  | none =>
    let responseJSON := m.1
    let t1 := t0 ++ [Event.logInfo ("responseJSON:" ++ env.string responseJSON),
      Event.taxonomyCheck responseJSON taxonomyFile]
    let c := env.TaxonomyCheck responseJSON taxonomyFile
    match c.2 with
    | some err => (some err, t1)
    | none =>
      let allErrs := c.1
      if allErrs.length ≠ 0 then
        (some (Err.invalid "app.fybrik.io" "infrastructure" "" allErrs), t1)
      else
        (none, t1)

/-- Go `handleRead(requestJsonFile, catalog, log)`. -/
def handleRead {S : Sig} (g : Globals) (env : Env S) (requestJsonFile : S.File)
    (catalog : DataCatalog S) : Option (Err S) × List (Event S) :=
  let byteValue := (env.ReadAll requestJsonFile).1
  let t0 : List (Event S) := [Event.readAll requestJsonFile, Event.unmarshal byteValue]
  let u := env.UnmarshalGetAssetRequest byteValue
  match u.2 with
  | some err => (some (Err.wrap err "dataCatalog request unmarshal failed"), t0)
  | none =>
    let dataCatalogReq := u.1
    let t1 := t0 ++ [Event.getAssetInfo dataCatalogReq g.credentialPath]
    let r := catalog.GetAssetInfo dataCatalogReq g.credentialPath
    match r.2 with
    | some err =>
      (some (Err.wrap err "failed to receive the catalog connector response"), t1)
    | none =>
      let response := r.1
      let v := ValidateAssetResponse env (Response.getAsset response)
        DataCatalogGetAssetResponseTaxonomy
      match v.1 with
      | some err =>
        (some (Err.wrap err "failed to validate the catalog connector response"), t1 ++ v.2)
      | none => (none, t1 ++ v.2 ++ [Event.logInfo "RESPONSE VALIDATION PASS"])

/-- Go `handleWrite(requestJsonFile, catalog, log)`. -/
def handleWrite {S : Sig} (g : Globals) (env : Env S) (requestJsonFile : S.File)
    (catalog : DataCatalog S) : Option (Err S) × List (Event S) :=
  let byteValue := (env.ReadAll requestJsonFile).1
  let t0 : List (Event S) := [Event.readAll requestJsonFile, Event.unmarshal byteValue]
  let u := env.UnmarshalCreateAssetRequest byteValue
  match u.2 with
  | some err => (some (Err.wrap err "dataCatalog request unmarshal failed"), t0)
  | none =>
    let dataCatalogReq := u.1
    let t1 := t0 ++ [Event.createAsset dataCatalogReq g.credentialPath]
    let r := catalog.CreateAsset dataCatalogReq g.credentialPath
    match r.2 with
    | some err =>
      (some err,
        t1 ++ [Event.logError err "failed to receive the catalog connector response"])
    | none =>
      let response := r.1
      let v := ValidateAssetResponse env (Response.createAsset response)
        DataCatalogCreateAssetResponseTaxonomy
      match v.1 with
      | some err =>
        (some (Err.wrap err "failed to validate the catalog connector response"), t1 ++ v.2)
      | none => (none, t1 ++ v.2 ++ [Event.logInfo "RESPONSE VALIDATION PASS"])

/-- What one run of `RunE` leaves behind. -/
structure RunResult (S : Sig) where
  /-- The returned error, `none` for nil. -/
  err : Option (Err S)
  /-- The calls to the outside world, in program order, deferred calls included. -/
  trace : List (Event S)
  /-- The field `request.operationType` after the run. -/
  operationType : String

/-- The part of `RunE` after `defer requestJsonFile.Close()`: the dispatch on
`requestOperation`. -/
def dispatch {S : Sig} (g : Globals) (env : Env S) (requestJsonFile : S.File)
    (catalog : DataCatalog S) : RunResult S :=
  if g.requestOperation = "get-asset" then
    let h := handleRead g env requestJsonFile catalog
    ⟨h.1, h.2, "get-asset"⟩
  else if g.requestOperation = "create-asset" then
    let h := handleWrite g env requestJsonFile catalog
    ⟨h.1, h.2, "create-asset"⟩
  else
    ⟨some (Err.new "Unsupported operation"), [], g.operationType⟩

/-- The part of `RunE` after `defer catalog.Close()`. -/
def afterCatalog {S : Sig} (g : Globals) (env : Env S) (catalog : DataCatalog S) :
    RunResult S :=
  let o := env.Open g.requestFile
  match o.2 with
  | some err =>
    ⟨some (Err.wrap err ("error opening " ++ g.requestFile)), [Event.osOpen g.requestFile],
      g.operationType⟩
  | none =>
    let requestJsonFile := o.1
    let d := dispatch g env requestJsonFile catalog
    ⟨d.err,
      [Event.osOpen g.requestFile, Event.logInfo ("Successfully Opened " ++ g.requestFile)]
        ++ d.trace ++ [Event.fileClose],
      d.operationType⟩

/-- Go `RunE` of `RootCmd()`. -/
def RunE {S : Sig} (g : Globals) (env : Env S) : RunResult S :=
  let n := newDataCatalog g env
  match n.1.2 with
  | some err =>
    ⟨some (Err.wrap err "unable to create data catalog facade"), n.2, g.operationType⟩
  | none =>
    let catalog := n.1.1
    let b := afterCatalog g env catalog
    ⟨b.err, n.2 ++ b.trace ++ [Event.catalogClose], b.operationType⟩

/-! ## The intermediate values of the handlers -/

/-- The pair `(dataCatalogReq, err)` after `json.Unmarshal` in `handleRead`. -/
def decodedGet {S : Sig} (env : Env S) (file : S.File) : S.GetAssetRequest × Option (Err S) :=
  env.UnmarshalGetAssetRequest (env.ReadAll file).1

/-- The pair `(response, err)` after `catalog.GetAssetInfo` in `handleRead`. -/
def answerGet {S : Sig} (g : Globals) (env : Env S) (file : S.File) (catalog : DataCatalog S) :
    S.GetAssetResponse × Option (Err S) :=
  catalog.GetAssetInfo (decodedGet env file).1 g.credentialPath

/-- The result and the calls of `ValidateAssetResponse` in `handleRead`. -/
def verdictGet {S : Sig} (g : Globals) (env : Env S) (file : S.File) (catalog : DataCatalog S) :
    Option (Err S) × List (Event S) :=
  ValidateAssetResponse env (Response.getAsset (answerGet g env file catalog).1)
    DataCatalogGetAssetResponseTaxonomy

/-- The pair `(dataCatalogReq, err)` after `json.Unmarshal` in `handleWrite`. -/
def decodedCreate {S : Sig} (env : Env S) (file : S.File) :
    S.CreateAssetRequest × Option (Err S) :=
  env.UnmarshalCreateAssetRequest (env.ReadAll file).1

/-- The pair `(response, err)` after `catalog.CreateAsset` in `handleWrite`. -/
def answerCreate {S : Sig} (g : Globals) (env : Env S) (file : S.File)
    (catalog : DataCatalog S) : S.CreateAssetResponse × Option (Err S) :=
  catalog.CreateAsset (decodedCreate env file).1 g.credentialPath

/-- The result and the calls of `ValidateAssetResponse` in `handleWrite`. -/
def verdictCreate {S : Sig} (g : Globals) (env : Env S) (file : S.File)
    (catalog : DataCatalog S) : Option (Err S) × List (Event S) :=
  ValidateAssetResponse env (Response.createAsset (answerCreate g env file catalog).1)
    DataCatalogCreateAssetResponseTaxonomy

/-- The catalog client `RunE` works with. -/
def clientOf {S : Sig} (g : Globals) (env : Env S) : DataCatalog S :=
  (env.NewDataCatalog "egeria" g.catalogconnectorUrl).1

/-- The request file `RunE` works with. -/
def fileOf {S : Sig} (g : Globals) (env : Env S) : S.File :=
  (env.Open g.requestFile).1

/-! ## A concrete environment for evaluating the definitions -/

/-- Every imported type is instantiated with strings, files with numbers. -/
abbrev demoSig : Sig := ⟨String, Nat, String, String, String, String, String⟩

/-- A connector that answers both operations. -/
def okCatalog : DataCatalog demoSig :=
  ⟨fun req _ => ("asset:" ++ req, none), fun req _ => ("created:" ++ req, none)⟩

/-- A connector that fails both operations. -/
def downCatalog : DataCatalog demoSig :=
  ⟨fun _ _ => ("", some (Err.external "connection refused")),
   fun _ _ => ("", some (Err.external "connection refused"))⟩

/-- Serialization of the demo responses: the empty response cannot be serialized. -/
def demoMarshal : Response demoSig → String × Option (Err demoSig)
  | .getAsset r => if r = "asset:" then ("", some (Err.external "unsupported value")) else (r, none)
  | .createAsset r =>
    if r = "created:" then ("", some (Err.external "unsupported value")) else (r, none)

/-- A taxonomy check for the demo: an unknown reference is fatal, the document
`asset:bad` has two violations, every other document conforms. -/
def demoTaxonomyCheck (doc : String) (ref : String) : List String × Option (Err demoSig) :=
  if ref = DataCatalogGetAssetResponseTaxonomy ∨ ref = DataCatalogCreateAssetResponseTaxonomy then
    if doc = "asset:bad" then (["name: Required value", "owner: Invalid type"], none)
    else ([], none)
  else (["stale"], some (Err.external "schema not found"))

/-- A request decoder for the demo: the empty payload does not decode. -/
def demoUnmarshal (data : String) : String × Option (Err demoSig) :=
  if data = "" then ("", some (Err.external "unexpected end of JSON input")) else (data, none)

/-- The demo environment: the client is created when `created` holds, only the
names in `present` can be opened, and every file holds `payload`. -/
def demoEnv (catalog : DataCatalog demoSig) (created : Bool) (present : List String)
    (payload : String) : Env demoSig where
  NewDataCatalog := fun _ _ =>
    if created then (catalog, none) else (catalog, some (Err.external "bad url"))
  Open := fun name =>
    if name ∈ present then (7, none) else (0, some (Err.external "no such file"))
  ReadAll := fun _ => (payload, none)
  UnmarshalGetAssetRequest := demoUnmarshal
  UnmarshalCreateAssetRequest := demoUnmarshal
  Marshal := demoMarshal
  TaxonomyCheck := demoTaxonomyCheck
  string := fun b => b

/-- The command-line defaults of `RootCmd`, with the given operation. -/
def demoGlobals (op : String) : Globals :=
  ⟨"resources/read-request.json", op, "/v1/kubernetes-secrets/my-secret?namespace=default",
    "http://localhost:8080", ""⟩

/-! ## Facts about the calls of the validator -/

/-- The record of the serialized response is never the pass record. -/
theorem responseJSON_ne_pass (s : String) :
    "responseJSON:" ++ s ≠ "RESPONSE VALIDATION PASS" := by
  intro h
  have h2 := congrArg String.data h
  rw [String.data_append] at h2
  have h3 := congrArg List.head? h2
  simp at h3

/-- The trace of `ValidateAssetResponse` is its entry and `json.Marshal` alone
when serialization fails, and otherwise these two followed by the record of the
serialized response and `validate.TaxonomyCheck`. -/
theorem ValidateAssetResponse_trace {S : Sig} (env : Env S) (response : Response S)
    (taxonomyFile : String) :
    (ValidateAssetResponse env response taxonomyFile).2 =
      if (env.Marshal response).2.isNone then
        [Event.validate response taxonomyFile, Event.marshal response,
          Event.logInfo ("responseJSON:" ++ env.string (env.Marshal response).1),
          Event.taxonomyCheck (env.Marshal response).1 taxonomyFile]
      else [Event.validate response taxonomyFile, Event.marshal response] := by
  cases hm : (env.Marshal response).2 with
  | some e => simp [ValidateAssetResponse, hm]
  | none =>
    cases hc : (env.TaxonomyCheck (env.Marshal response).1 taxonomyFile).2 with
    | some e => simp [ValidateAssetResponse, hm, hc]
    | none =>
      by_cases h : (env.TaxonomyCheck (env.Marshal response).1 taxonomyFile).1 = []
      · simp [ValidateAssetResponse, hm, hc, h]
      · simp [ValidateAssetResponse, hm, hc, h]

/-- The validator never writes the pass record. -/
theorem ValidateAssetResponse_no_pass {S : Sig} (env : Env S) (response : Response S)
    (taxonomyFile : String) :
    ∀ ev ∈ (ValidateAssetResponse env response taxonomyFile).2,
      Event.isLogInfo "RESPONSE VALIDATION PASS" ev = false := by
  intro ev hev
  rw [ValidateAssetResponse_trace] at hev
  have hne := responseJSON_ne_pass (env.string (env.Marshal response).1)
  split at hev
  · simp only [List.mem_cons, List.mem_singleton, List.not_mem_nil, or_false] at hev
    rcases hev with h | h | h | h <;> subst h <;> simp [Event.isLogInfo, hne]
  · simp only [List.mem_cons, List.mem_singleton, List.not_mem_nil, or_false] at hev
    rcases hev with h | h <;> subst h <;> simp [Event.isLogInfo]

/-- The validator calls no catalog operation and does not close the client. -/
theorem ValidateAssetResponse_no_catalog {S : Sig} (env : Env S) (response : Response S)
    (taxonomyFile : String) :
    ∀ ev ∈ (ValidateAssetResponse env response taxonomyFile).2,
      Event.isCatalogOp ev = false ∧ Event.isCatalogClose ev = false := by
  intro ev hev
  rw [ValidateAssetResponse_trace] at hev
  split at hev
  · simp only [List.mem_cons, List.mem_singleton, List.not_mem_nil, or_false] at hev
    rcases hev with h | h | h | h <;> subst h <;> simp [Event.isCatalogOp, Event.isCatalogClose]
  · simp only [List.mem_cons, List.mem_singleton, List.not_mem_nil, or_false] at hev
    rcases hev with h | h <;> subst h <;> simp [Event.isCatalogOp, Event.isCatalogClose]

/-- One call of the validator leaves exactly one entry event, with its own arguments. -/
theorem ValidateAssetResponse_entry {S : Sig} (env : Env S) (response : Response S)
    (taxonomyFile : String) :
    (ValidateAssetResponse env response taxonomyFile).2.filter Event.isValidate =
      [Event.validate response taxonomyFile] := by
  rw [ValidateAssetResponse_trace]
  split <;> simp [Event.isValidate]

/-! ## The four ways through each handler -/

/-- `handleRead` when the request does not decode. -/
theorem handleRead_decode_fail {S : Sig} (g : Globals) (env : Env S) (file : S.File)
    (catalog : DataCatalog S) (e : Err S) (hu : (decodedGet env file).2 = some e) :
    handleRead g env file catalog =
      (some (Err.wrap e "dataCatalog request unmarshal failed"),
        [Event.readAll file, Event.unmarshal (env.ReadAll file).1]) := by
  simp only [decodedGet] at hu
  simp [handleRead, hu]

/-- `handleRead` when the request decodes and `GetAssetInfo` fails. -/
theorem handleRead_catalog_fail {S : Sig} (g : Globals) (env : Env S) (file : S.File)
    (catalog : DataCatalog S) (e : Err S) (hu : (decodedGet env file).2 = none)
    (hr : (answerGet g env file catalog).2 = some e) :
    handleRead g env file catalog =
      (some (Err.wrap e "failed to receive the catalog connector response"),
        [Event.readAll file, Event.unmarshal (env.ReadAll file).1,
          Event.getAssetInfo (decodedGet env file).1 g.credentialPath]) := by
  simp only [decodedGet, answerGet] at hu hr ⊢
  simp [handleRead, hu, hr]

/-- `handleRead` when the request decodes, `GetAssetInfo` answers and validation fails. -/
theorem handleRead_validate_fail {S : Sig} (g : Globals) (env : Env S) (file : S.File)
    (catalog : DataCatalog S) (v : Err S) (hu : (decodedGet env file).2 = none)
    (hr : (answerGet g env file catalog).2 = none)
    (hv : (verdictGet g env file catalog).1 = some v) :
    handleRead g env file catalog =
      (some (Err.wrap v "failed to validate the catalog connector response"),
        [Event.readAll file, Event.unmarshal (env.ReadAll file).1,
          Event.getAssetInfo (decodedGet env file).1 g.credentialPath] ++
        (verdictGet g env file catalog).2) := by
  simp only [decodedGet, answerGet, verdictGet] at hu hr hv ⊢
  simp [handleRead, hu, hr, hv]

/-- `handleRead` when the request decodes, `GetAssetInfo` answers and validation passes. -/
theorem handleRead_pass {S : Sig} (g : Globals) (env : Env S) (file : S.File)
    (catalog : DataCatalog S) (hu : (decodedGet env file).2 = none)
    (hr : (answerGet g env file catalog).2 = none)
    (hv : (verdictGet g env file catalog).1 = none) :
    handleRead g env file catalog =
      (none,
        [Event.readAll file, Event.unmarshal (env.ReadAll file).1,
          Event.getAssetInfo (decodedGet env file).1 g.credentialPath] ++
        (verdictGet g env file catalog).2 ++ [Event.logInfo "RESPONSE VALIDATION PASS"]) := by
  simp only [decodedGet, answerGet, verdictGet] at hu hr hv ⊢
  simp [handleRead, hu, hr, hv]

/-- `handleWrite` when the request does not decode. -/
theorem handleWrite_decode_fail {S : Sig} (g : Globals) (env : Env S) (file : S.File)
    (catalog : DataCatalog S) (e : Err S) (hu : (decodedCreate env file).2 = some e) :
    handleWrite g env file catalog =
      (some (Err.wrap e "dataCatalog request unmarshal failed"),
        [Event.readAll file, Event.unmarshal (env.ReadAll file).1]) := by
  simp only [decodedCreate] at hu
  simp [handleWrite, hu]

/-- `handleWrite` when the request decodes and `CreateAsset` fails: the error is
logged with the phase message and returned bare. -/
theorem handleWrite_catalog_fail {S : Sig} (g : Globals) (env : Env S) (file : S.File)
    (catalog : DataCatalog S) (e : Err S) (hu : (decodedCreate env file).2 = none)
    (hr : (answerCreate g env file catalog).2 = some e) :
    handleWrite g env file catalog =
      (some e,
        [Event.readAll file, Event.unmarshal (env.ReadAll file).1,
          Event.createAsset (decodedCreate env file).1 g.credentialPath,
          Event.logError e "failed to receive the catalog connector response"]) := by
  simp only [decodedCreate, answerCreate] at hu hr ⊢
  simp [handleWrite, hu, hr]

/-- `handleWrite` when the request decodes, `CreateAsset` answers and validation fails. -/
theorem handleWrite_validate_fail {S : Sig} (g : Globals) (env : Env S) (file : S.File)
    (catalog : DataCatalog S) (v : Err S) (hu : (decodedCreate env file).2 = none)
    (hr : (answerCreate g env file catalog).2 = none)
    (hv : (verdictCreate g env file catalog).1 = some v) :
    handleWrite g env file catalog =
      (some (Err.wrap v "failed to validate the catalog connector response"),
        [Event.readAll file, Event.unmarshal (env.ReadAll file).1,
          Event.createAsset (decodedCreate env file).1 g.credentialPath] ++
        (verdictCreate g env file catalog).2) := by
  simp only [decodedCreate, answerCreate, verdictCreate] at hu hr hv ⊢
  simp [handleWrite, hu, hr, hv]

/-- `handleWrite` when the request decodes, `CreateAsset` answers and validation passes. -/
theorem handleWrite_pass {S : Sig} (g : Globals) (env : Env S) (file : S.File)
    (catalog : DataCatalog S) (hu : (decodedCreate env file).2 = none)
    (hr : (answerCreate g env file catalog).2 = none)
    (hv : (verdictCreate g env file catalog).1 = none) :
    handleWrite g env file catalog =
      (none,
        [Event.readAll file, Event.unmarshal (env.ReadAll file).1,
          Event.createAsset (decodedCreate env file).1 g.credentialPath] ++
        (verdictCreate g env file catalog).2 ++
        [Event.logInfo "RESPONSE VALIDATION PASS"]) := by
  simp only [decodedCreate, answerCreate, verdictCreate] at hu hr hv ⊢
  simp [handleWrite, hu, hr, hv]

/-! ## Counting the calls of a handler -/

/-- The pass record is not among the calls of the validator. -/
theorem pass_not_mem_validate {S : Sig} (env : Env S) (response : Response S)
    (taxonomyFile : String) :
    Event.logInfo "RESPONSE VALIDATION PASS" ∉
      (ValidateAssetResponse env response taxonomyFile).2 := by
  intro h
  have := ValidateAssetResponse_no_pass env response taxonomyFile _ h
  simp [Event.isLogInfo] at this

/-- The validator contributes no catalog call to a trace. -/
theorem ValidateAssetResponse_filter_catalogOp {S : Sig} (env : Env S)
    (response : Response S) (taxonomyFile : String) :
    (ValidateAssetResponse env response taxonomyFile).2.filter Event.isCatalogOp = [] := by
  rw [List.filter_eq_nil_iff]
  intro ev hev
  simp [(ValidateAssetResponse_no_catalog env response taxonomyFile ev hev).1]

/-- The number of catalog calls `handleRead` makes: one when the request
decodes, none otherwise. -/
theorem handleRead_catalog_calls {S : Sig} (g : Globals) (env : Env S) (file : S.File)
    (catalog : DataCatalog S) :
    ((handleRead g env file catalog).2.filter Event.isCatalogOp).length =
      if (decodedGet env file).2.isNone then 1 else 0 := by
  cases hu : (decodedGet env file).2 with
  | some e => simp [handleRead_decode_fail g env file catalog e hu, Event.isCatalogOp]
  | none =>
    cases hr : (answerGet g env file catalog).2 with
    | some e => simp [handleRead_catalog_fail g env file catalog e hu hr, Event.isCatalogOp]
    | none =>
      cases hv : (verdictGet g env file catalog).1 with
      | some v =>
        simp [handleRead_validate_fail g env file catalog v hu hr hv, Event.isCatalogOp,
          verdictGet, ValidateAssetResponse_filter_catalogOp]
      | none =>
        simp [handleRead_pass g env file catalog hu hr hv, Event.isCatalogOp,
          verdictGet, ValidateAssetResponse_filter_catalogOp]

/-- The number of times `handleRead` enters the validator: once when the request
decodes and `GetAssetInfo` answers, never otherwise. -/
theorem handleRead_validate_calls {S : Sig} (g : Globals) (env : Env S) (file : S.File)
    (catalog : DataCatalog S) :
    ((handleRead g env file catalog).2.filter Event.isValidate).length =
      if (decodedGet env file).2.isNone ∧ (answerGet g env file catalog).2.isNone then 1
      else 0 := by
  cases hu : (decodedGet env file).2 with
  | some e => simp [handleRead_decode_fail g env file catalog e hu, Event.isValidate]
  | none =>
    cases hr : (answerGet g env file catalog).2 with
    | some e => simp [handleRead_catalog_fail g env file catalog e hu hr, Event.isValidate]
    | none =>
      cases hv : (verdictGet g env file catalog).1 with
      | some v =>
        simp [handleRead_validate_fail g env file catalog v hu hr hv, Event.isValidate,
          verdictGet, ValidateAssetResponse_entry]
      | none =>
        simp [handleRead_pass g env file catalog hu hr hv, Event.isValidate,
          verdictGet, ValidateAssetResponse_entry]

/-- The number of catalog calls `handleWrite` makes: one when the request
decodes, none otherwise. -/
theorem handleWrite_catalog_calls {S : Sig} (g : Globals) (env : Env S) (file : S.File)
    (catalog : DataCatalog S) :
    ((handleWrite g env file catalog).2.filter Event.isCatalogOp).length =
      if (decodedCreate env file).2.isNone then 1 else 0 := by
  cases hu : (decodedCreate env file).2 with
  | some e => simp [handleWrite_decode_fail g env file catalog e hu, Event.isCatalogOp]
  | none =>
    cases hr : (answerCreate g env file catalog).2 with
    | some e => simp [handleWrite_catalog_fail g env file catalog e hu hr, Event.isCatalogOp]
    | none =>
      cases hv : (verdictCreate g env file catalog).1 with
      | some v =>
        simp [handleWrite_validate_fail g env file catalog v hu hr hv, Event.isCatalogOp,
          verdictCreate, ValidateAssetResponse_filter_catalogOp]
      | none =>
        simp [handleWrite_pass g env file catalog hu hr hv, Event.isCatalogOp,
          verdictCreate, ValidateAssetResponse_filter_catalogOp]

/-- The number of times `handleWrite` enters the validator: once when the request
decodes and `CreateAsset` answers, never otherwise. -/
theorem handleWrite_validate_calls {S : Sig} (g : Globals) (env : Env S) (file : S.File)
    (catalog : DataCatalog S) :
    ((handleWrite g env file catalog).2.filter Event.isValidate).length =
      if (decodedCreate env file).2.isNone ∧ (answerCreate g env file catalog).2.isNone then 1
      else 0 := by
  cases hu : (decodedCreate env file).2 with
  | some e => simp [handleWrite_decode_fail g env file catalog e hu, Event.isValidate]
  | none =>
    cases hr : (answerCreate g env file catalog).2 with
    | some e => simp [handleWrite_catalog_fail g env file catalog e hu hr, Event.isValidate]
    | none =>
      cases hv : (verdictCreate g env file catalog).1 with
      | some v =>
        simp [handleWrite_validate_fail g env file catalog v hu hr hv, Event.isValidate,
          verdictCreate, ValidateAssetResponse_entry]
      | none =>
        simp [handleWrite_pass g env file catalog hu hr hv, Event.isValidate,
          verdictCreate, ValidateAssetResponse_entry]

/-! ## The ways through `RunE` -/

/-- `RunE` when the catalog client cannot be created: it returns before the
deferred `Close()` is registered. -/
theorem RunE_not_created {S : Sig} (g : Globals) (env : Env S) (e : Err S)
    (hn : (env.NewDataCatalog "egeria" g.catalogconnectorUrl).2 = some e) :
    RunE g env =
      ⟨some (Err.wrap e "unable to create data catalog facade"),
        [Event.newDataCatalog "egeria" g.catalogconnectorUrl], g.operationType⟩ := by
  simp [RunE, newDataCatalog, hn]

/-- `RunE` when the client is created and the request file cannot be opened. -/
theorem RunE_not_opened {S : Sig} (g : Globals) (env : Env S) (e : Err S)
    (hn : (env.NewDataCatalog "egeria" g.catalogconnectorUrl).2 = none)
    (ho : (env.Open g.requestFile).2 = some e) :
    RunE g env =
      ⟨some (Err.wrap e ("error opening " ++ g.requestFile)),
        [Event.newDataCatalog "egeria" g.catalogconnectorUrl, Event.osOpen g.requestFile,
          Event.catalogClose],
        g.operationType⟩ := by
  simp [RunE, newDataCatalog, afterCatalog, hn, ho]

/-- `RunE` when the client is created and the request file opens. -/
theorem RunE_dispatched {S : Sig} (g : Globals) (env : Env S)
    (hn : (env.NewDataCatalog "egeria" g.catalogconnectorUrl).2 = none)
    (ho : (env.Open g.requestFile).2 = none) :
    RunE g env =
      ⟨(dispatch g env (fileOf g env) (clientOf g env)).err,
        [Event.newDataCatalog "egeria" g.catalogconnectorUrl, Event.osOpen g.requestFile,
          Event.logInfo ("Successfully Opened " ++ g.requestFile)] ++
        (dispatch g env (fileOf g env) (clientOf g env)).trace ++
        [Event.fileClose, Event.catalogClose],
        (dispatch g env (fileOf g env) (clientOf g env)).operationType⟩ := by
  simp [RunE, newDataCatalog, afterCatalog, hn, ho, fileOf, clientOf]

/-- The dispatch for `get-asset`. -/
theorem dispatch_get {S : Sig} (g : Globals) (env : Env S) (file : S.File)
    (catalog : DataCatalog S) (h : g.requestOperation = "get-asset") :
    dispatch g env file catalog =
      ⟨(handleRead g env file catalog).1, (handleRead g env file catalog).2, "get-asset"⟩ := by
  simp [dispatch, h]

/-- The dispatch for `create-asset`. -/
theorem dispatch_create {S : Sig} (g : Globals) (env : Env S) (file : S.File)
    (catalog : DataCatalog S) (h : g.requestOperation = "create-asset") :
    dispatch g env file catalog =
      ⟨(handleWrite g env file catalog).1, (handleWrite g env file catalog).2,
        "create-asset"⟩ := by
  simp [dispatch, h]

/-- The dispatch for every other operation name. -/
theorem dispatch_other {S : Sig} (g : Globals) (env : Env S) (file : S.File)
    (catalog : DataCatalog S) (hget : g.requestOperation ≠ "get-asset")
    (hcreate : g.requestOperation ≠ "create-asset") :
    dispatch g env file catalog =
      ⟨some (Err.new "Unsupported operation"), [], g.operationType⟩ := by
  simp [dispatch, hget, hcreate]

/-- The validator does not close the catalog client. -/
theorem ValidateAssetResponse_filter_close {S : Sig} (env : Env S)
    (response : Response S) (taxonomyFile : String) :
    (ValidateAssetResponse env response taxonomyFile).2.filter Event.isCatalogClose = [] := by
  rw [List.filter_eq_nil_iff]
  intro ev hev
  simp [(ValidateAssetResponse_no_catalog env response taxonomyFile ev hev).2]

/-- No handler closes the catalog client. -/
theorem handlers_filter_close {S : Sig} (g : Globals) (env : Env S) (file : S.File)
    (catalog : DataCatalog S) :
    (handleRead g env file catalog).2.filter Event.isCatalogClose = [] ∧
      (handleWrite g env file catalog).2.filter Event.isCatalogClose = [] := by
  constructor
  · cases hu : (decodedGet env file).2 with
    | some e => simp [handleRead_decode_fail g env file catalog e hu, Event.isCatalogClose]
    | none =>
      cases hr : (answerGet g env file catalog).2 with
      | some e => simp [handleRead_catalog_fail g env file catalog e hu hr, Event.isCatalogClose]
      | none =>
        cases hv : (verdictGet g env file catalog).1 with
        | some v =>
          simp [handleRead_validate_fail g env file catalog v hu hr hv, Event.isCatalogClose,
            verdictGet, ValidateAssetResponse_filter_close]
        | none =>
          simp [handleRead_pass g env file catalog hu hr hv, Event.isCatalogClose,
            verdictGet, ValidateAssetResponse_filter_close]
  · cases hu : (decodedCreate env file).2 with
    | some e => simp [handleWrite_decode_fail g env file catalog e hu, Event.isCatalogClose]
    | none =>
      cases hr : (answerCreate g env file catalog).2 with
      | some e =>
        simp [handleWrite_catalog_fail g env file catalog e hu hr, Event.isCatalogClose]
      | none =>
        cases hv : (verdictCreate g env file catalog).1 with
        | some v =>
          simp [handleWrite_validate_fail g env file catalog v hu hr hv, Event.isCatalogClose,
            verdictCreate, ValidateAssetResponse_filter_close]
        | none =>
          simp [handleWrite_pass g env file catalog hu hr hv, Event.isCatalogClose,
            verdictCreate, ValidateAssetResponse_filter_close]

/-- The dispatch does not close the catalog client. -/
theorem dispatch_filter_close {S : Sig} (g : Globals) (env : Env S) (file : S.File)
    (catalog : DataCatalog S) :
    (dispatch g env file catalog).trace.filter Event.isCatalogClose = [] := by
  by_cases hget : g.requestOperation = "get-asset"
  · rw [dispatch_get g env file catalog hget]
    exact (handlers_filter_close g env file catalog).1
  · by_cases hcreate : g.requestOperation = "create-asset"
    · rw [dispatch_create g env file catalog hcreate]
      exact (handlers_filter_close g env file catalog).2
    · rw [dispatch_other g env file catalog hget hcreate]
      rfl

/-- The dispatch makes at most one catalog call and enters the validator at most once. -/
theorem dispatch_calls_le_one {S : Sig} (g : Globals) (env : Env S) (file : S.File)
    (catalog : DataCatalog S) :
    ((dispatch g env file catalog).trace.filter Event.isCatalogOp).length ≤ 1 ∧
      ((dispatch g env file catalog).trace.filter Event.isValidate).length ≤ 1 := by
  by_cases hget : g.requestOperation = "get-asset"
  · rw [dispatch_get g env file catalog hget]
    simp only [handleRead_catalog_calls, handleRead_validate_calls]
    constructor <;> split <;> simp
  · by_cases hcreate : g.requestOperation = "create-asset"
    · rw [dispatch_create g env file catalog hcreate]
      simp only [handleWrite_catalog_calls, handleWrite_validate_calls]
      constructor <;> split <;> simp
    · rw [dispatch_other g env file catalog hget hcreate]
      simp

/-! ## What each event of a handler carries -/

/-- Every event of the validator is its entry, `json.Marshal` of its argument,
the record of the serialized response, or `validate.TaxonomyCheck` with its
own taxonomy reference. -/
theorem ValidateAssetResponse_mem {S : Sig} (env : Env S) (response : Response S)
    (taxonomyFile : String) (ev : Event S)
    (hev : ev ∈ (ValidateAssetResponse env response taxonomyFile).2) :
    ev = Event.validate response taxonomyFile ∨ ev = Event.marshal response ∨
      ev = Event.logInfo ("responseJSON:" ++ env.string (env.Marshal response).1) ∨
      ev = Event.taxonomyCheck (env.Marshal response).1 taxonomyFile := by
  rw [ValidateAssetResponse_trace] at hev
  split at hev
  · simpa using hev
  · simp only [List.mem_cons, List.mem_singleton, List.not_mem_nil, or_false] at hev
    rcases hev with h | h
    · exact Or.inl h
    · exact Or.inr (Or.inl h)

/-- The events of `handleRead`: no `CreateAsset`; `GetAssetInfo` only with the
decoded request and the credential path; the validator only on the answer of
`GetAssetInfo`, with the `GetAssetResponse` taxonomy, after that call. -/
theorem handleRead_events {S : Sig} (g : Globals) (env : Env S) (file : S.File)
    (catalog : DataCatalog S) (ev : Event S) (hev : ev ∈ (handleRead g env file catalog).2) :
    Event.isCreateAsset ev = false ∧
      (∀ req creds, ev = Event.getAssetInfo req creds →
        req = (decodedGet env file).1 ∧ creds = g.credentialPath) ∧
      (∀ resp ref, ev = Event.validate resp ref →
        resp = Response.getAsset (answerGet g env file catalog).1 ∧
        ref = DataCatalogGetAssetResponseTaxonomy ∧
        (answerGet g env file catalog).2 = none ∧
        Event.getAssetInfo (decodedGet env file).1 g.credentialPath ∈
          (handleRead g env file catalog).2) ∧
      (∀ json ref, ev = Event.taxonomyCheck json ref →
        ref = DataCatalogGetAssetResponseTaxonomy) := by
  cases hu : (decodedGet env file).2 with
  | some e =>
    rw [handleRead_decode_fail g env file catalog e hu] at hev ⊢
    simp only [List.mem_cons, List.mem_singleton, List.not_mem_nil, or_false] at hev
    rcases hev with h | h <;> subst h <;> simp [Event.isCreateAsset]
  | none =>
    cases hr : (answerGet g env file catalog).2 with
    | some e =>
      rw [handleRead_catalog_fail g env file catalog e hu hr] at hev ⊢
      simp only [List.mem_cons, List.mem_singleton, List.not_mem_nil, or_false] at hev
      rcases hev with h | h | h <;> subst h <;> simp [Event.isCreateAsset]
    | none =>
      have key : ev = Event.readAll file ∨ ev = Event.unmarshal (env.ReadAll file).1 ∨
          ev = Event.getAssetInfo (decodedGet env file).1 g.credentialPath ∨
          ev ∈ (verdictGet g env file catalog).2 ∨
          ev = Event.logInfo "RESPONSE VALIDATION PASS" := by
        cases hv : (verdictGet g env file catalog).1 with
        | some v =>
          rw [handleRead_validate_fail g env file catalog v hu hr hv] at hev
          simp only [List.mem_append, List.mem_cons, List.mem_singleton, List.not_mem_nil,
            or_false] at hev
          tauto
        | none =>
          rw [handleRead_pass g env file catalog hu hr hv] at hev
          simp only [List.mem_append, List.mem_cons, List.mem_singleton, List.not_mem_nil,
            or_false] at hev
          tauto
      have hmem : Event.getAssetInfo (decodedGet env file).1 g.credentialPath ∈
          (handleRead g env file catalog).2 := by
        cases hv : (verdictGet g env file catalog).1 with
        | some v => simp [handleRead_validate_fail g env file catalog v hu hr hv]
        | none => simp [handleRead_pass g env file catalog hu hr hv]
      rcases key with h | h | h | h | h
      · subst h; simp [Event.isCreateAsset]
      · subst h; simp [Event.isCreateAsset]
      · subst h; simp [Event.isCreateAsset]
      · rcases ValidateAssetResponse_mem env _ _ ev h with h | h | h | h <;> subst h <;>
          simp [Event.isCreateAsset, hmem]
      · subst h; simp [Event.isCreateAsset]

/-- The events of `handleWrite`: no `GetAssetInfo`; `CreateAsset` only with the
decoded request and the credential path; the validator only on the answer of
`CreateAsset`, with the `CreateAssetResponse` taxonomy, after that call. -/
theorem handleWrite_events {S : Sig} (g : Globals) (env : Env S) (file : S.File)
    (catalog : DataCatalog S) (ev : Event S)
    (hev : ev ∈ (handleWrite g env file catalog).2) :
    Event.isGetAssetInfo ev = false ∧
      (∀ req creds, ev = Event.createAsset req creds →
        req = (decodedCreate env file).1 ∧ creds = g.credentialPath) ∧
      (∀ resp ref, ev = Event.validate resp ref →
        resp = Response.createAsset (answerCreate g env file catalog).1 ∧
        ref = DataCatalogCreateAssetResponseTaxonomy ∧
        (answerCreate g env file catalog).2 = none ∧
        Event.createAsset (decodedCreate env file).1 g.credentialPath ∈
          (handleWrite g env file catalog).2) ∧
      (∀ json ref, ev = Event.taxonomyCheck json ref →
        ref = DataCatalogCreateAssetResponseTaxonomy) := by
  cases hu : (decodedCreate env file).2 with
  | some e =>
    rw [handleWrite_decode_fail g env file catalog e hu] at hev ⊢
    simp only [List.mem_cons, List.mem_singleton, List.not_mem_nil, or_false] at hev
    rcases hev with h | h <;> subst h <;> simp [Event.isGetAssetInfo]
  | none =>
    cases hr : (answerCreate g env file catalog).2 with
    | some e =>
      rw [handleWrite_catalog_fail g env file catalog e hu hr] at hev ⊢
      simp only [List.mem_cons, List.mem_singleton, List.not_mem_nil, or_false] at hev
      rcases hev with h | h | h | h <;> subst h <;> simp [Event.isGetAssetInfo]
    | none =>
      have key : ev = Event.readAll file ∨ ev = Event.unmarshal (env.ReadAll file).1 ∨
          ev = Event.createAsset (decodedCreate env file).1 g.credentialPath ∨
          ev ∈ (verdictCreate g env file catalog).2 ∨
          ev = Event.logInfo "RESPONSE VALIDATION PASS" := by
        cases hv : (verdictCreate g env file catalog).1 with
        | some v =>
          rw [handleWrite_validate_fail g env file catalog v hu hr hv] at hev
          simp only [List.mem_append, List.mem_cons, List.mem_singleton, List.not_mem_nil,
            or_false] at hev
          tauto
        | none =>
          rw [handleWrite_pass g env file catalog hu hr hv] at hev
          simp only [List.mem_append, List.mem_cons, List.mem_singleton, List.not_mem_nil,
            or_false] at hev
          tauto
      have hmem : Event.createAsset (decodedCreate env file).1 g.credentialPath ∈
          (handleWrite g env file catalog).2 := by
        cases hv : (verdictCreate g env file catalog).1 with
        | some v => simp [handleWrite_validate_fail g env file catalog v hu hr hv]
        | none => simp [handleWrite_pass g env file catalog hu hr hv]
      rcases key with h | h | h | h | h
      · subst h; simp [Event.isGetAssetInfo]
      · subst h; simp [Event.isGetAssetInfo]
      · subst h; simp [Event.isGetAssetInfo]
      · rcases ValidateAssetResponse_mem env _ _ ev h with h | h | h | h <;> subst h <;>
          simp [Event.isGetAssetInfo, hmem]
      · subst h; simp [Event.isGetAssetInfo]

/-! ## Validator -/

/-- C2: when serialization and the taxonomy check both finish without a fatal
error, `ValidateAssetResponse` returns nil exactly when the violation list is
empty, and for a non-empty list it returns the one aggregate Invalid error
holding that very list. -/
theorem ValidateAssetResponse_nil_iff_conformant {S : Sig} (env : Env S)
    (response : Response S) (taxonomyFile : String)
    (hm : (env.Marshal response).2 = none)
    (hc : (env.TaxonomyCheck (env.Marshal response).1 taxonomyFile).2 = none) :
    ((ValidateAssetResponse env response taxonomyFile).1 = none ↔
        (env.TaxonomyCheck (env.Marshal response).1 taxonomyFile).1 = []) ∧
      ((env.TaxonomyCheck (env.Marshal response).1 taxonomyFile).1 ≠ [] →
        (ValidateAssetResponse env response taxonomyFile).1 =
          some (Err.invalid "app.fybrik.io" "infrastructure" ""
            (env.TaxonomyCheck (env.Marshal response).1 taxonomyFile).1)) := by
  simp only [ValidateAssetResponse, hm, hc]
  by_cases h : (env.TaxonomyCheck (env.Marshal response).1 taxonomyFile).1 = []
  · simp [h]
  · simp [h]

/-- C2 at a response with two violations: both hypotheses hold and the result
is the aggregate of exactly these two, in order. -/
theorem ValidateAssetResponse_nil_iff_conformant_witness :
    (ValidateAssetResponse (demoEnv okCatalog true [] "q") (Response.getAsset "asset:bad")
        DataCatalogGetAssetResponseTaxonomy).1 =
      some (Err.invalid "app.fybrik.io" "infrastructure" ""
        ["name: Required value", "owner: Invalid type"]) :=
  (ValidateAssetResponse_nil_iff_conformant (demoEnv okCatalog true [] "q")
    (Response.getAsset "asset:bad") DataCatalogGetAssetResponseTaxonomy rfl rfl).2
    (by decide)

/-- C6: a fatal error of `json.Marshal` or of `validate.TaxonomyCheck` is
returned as it is. After a failed serialization the only outside call made is
`json.Marshal`, so the taxonomy check is not run. The fatal error wins over
whatever violation list the taxonomy check hands back with it, so unless the
fatal error is itself of the Invalid kind the result is not of that kind. -/
theorem ValidateAssetResponse_fatal_returned {S : Sig} (env : Env S)
    (response : Response S) (taxonomyFile : String) (e : Err S) :
    ((env.Marshal response).2 = some e →
        ValidateAssetResponse env response taxonomyFile =
          (some e, [Event.validate response taxonomyFile, Event.marshal response])) ∧
      ((env.Marshal response).2 = none →
        (env.TaxonomyCheck (env.Marshal response).1 taxonomyFile).2 = some e →
        (ValidateAssetResponse env response taxonomyFile).1 = some e) ∧
      (((env.Marshal response).2 = some e ∨
          ((env.Marshal response).2 = none ∧
            (env.TaxonomyCheck (env.Marshal response).1 taxonomyFile).2 = some e)) →
        e.isInvalid = false →
        ∀ x, (ValidateAssetResponse env response taxonomyFile).1 = some x →
          x.isInvalid = false) := by
  refine ⟨?_, ?_, ?_⟩
  · intro hm
    simp [ValidateAssetResponse, hm]
  · intro hm hc
    simp [ValidateAssetResponse, hm, hc]
  · intro h he x hx
    rcases h with hm | ⟨hm, hc⟩
    · simp [ValidateAssetResponse, hm] at hx
      subst hx
      exact he
    · simp [ValidateAssetResponse, hm, hc] at hx
      subst hx
      exact he

/-- C6 at a response that cannot be serialized, and at a reference the schema
store does not know (the check hands back a non-empty list with its error). -/
theorem ValidateAssetResponse_fatal_returned_witness :
    ValidateAssetResponse (demoEnv okCatalog true [] "q") (Response.getAsset "asset:")
        DataCatalogGetAssetResponseTaxonomy =
      (some (Err.external "unsupported value"),
        [Event.validate (Response.getAsset "asset:") DataCatalogGetAssetResponseTaxonomy,
          Event.marshal (Response.getAsset "asset:")]) ∧
    (demoTaxonomyCheck "asset:ok" "missing.json#/definitions/GetAssetResponse").1 = ["stale"] ∧
    (ValidateAssetResponse (demoEnv okCatalog true [] "q") (Response.getAsset "asset:ok")
        "missing.json#/definitions/GetAssetResponse").1 =
      some (Err.external "schema not found") :=
  ⟨(ValidateAssetResponse_fatal_returned (demoEnv okCatalog true [] "q")
      (Response.getAsset "asset:") DataCatalogGetAssetResponseTaxonomy
      (Err.external "unsupported value")).1 rfl,
    rfl,
    (ValidateAssetResponse_fatal_returned (demoEnv okCatalog true [] "q")
      (Response.getAsset "asset:ok") "missing.json#/definitions/GetAssetResponse"
      (Err.external "schema not found")).2.1 rfl rfl⟩

/-! ## Handlers -/

/-- C5: when the request payload does not decode into the request shape of
the operation, the handler returns the parse error wrapped with the decode
message, and its trace holds no catalog call and no validator event. -/
theorem handlers_decode_error {S : Sig} (g : Globals) (env : Env S) (file : S.File)
    (catalog : DataCatalog S) (e : Err S) :
    ((decodedGet env file).2 = some e →
        (handleRead g env file catalog).1 =
          some (Err.wrap e "dataCatalog request unmarshal failed") ∧
        ∀ ev ∈ (handleRead g env file catalog).2,
          Event.isCatalogOp ev = false ∧ Event.isValidator ev = false) ∧
      ((decodedCreate env file).2 = some e →
        (handleWrite g env file catalog).1 =
          some (Err.wrap e "dataCatalog request unmarshal failed") ∧
        ∀ ev ∈ (handleWrite g env file catalog).2,
          Event.isCatalogOp ev = false ∧ Event.isValidator ev = false) := by
  constructor
  · intro hu
    rw [handleRead_decode_fail g env file catalog e hu]
    refine ⟨rfl, ?_⟩
    intro ev hev
    simp only [List.mem_cons, List.mem_singleton, List.not_mem_nil, or_false] at hev
    rcases hev with h | h <;> subst h <;> simp [Event.isCatalogOp, Event.isValidator]
  · intro hu
    rw [handleWrite_decode_fail g env file catalog e hu]
    refine ⟨rfl, ?_⟩
    intro ev hev
    simp only [List.mem_cons, List.mem_singleton, List.not_mem_nil, or_false] at hev
    rcases hev with h | h <;> subst h <;> simp [Event.isCatalogOp, Event.isValidator]

/-- C5 at the empty payload, which the demo decoder rejects, for both handlers. -/
theorem handlers_decode_error_witness :
    handleRead (demoGlobals "get-asset") (demoEnv okCatalog true [] "") 7 okCatalog =
        (some (Err.wrap (Err.external "unexpected end of JSON input")
          "dataCatalog request unmarshal failed"), [Event.readAll 7, Event.unmarshal ""]) ∧
      (handleRead (demoGlobals "get-asset") (demoEnv okCatalog true [] "") 7 okCatalog).1 =
        some (Err.wrap (Err.external "unexpected end of JSON input")
          "dataCatalog request unmarshal failed") ∧
      (handleWrite (demoGlobals "create-asset") (demoEnv okCatalog true [] "") 7 okCatalog).1 =
        some (Err.wrap (Err.external "unexpected end of JSON input")
          "dataCatalog request unmarshal failed") :=
  ⟨rfl,
    ((handlers_decode_error (demoGlobals "get-asset") (demoEnv okCatalog true [] "") 7
      okCatalog (Err.external "unexpected end of JSON input")).1 rfl).1,
    ((handlers_decode_error (demoGlobals "create-asset") (demoEnv okCatalog true [] "") 7
      okCatalog (Err.external "unexpected end of JSON input")).2 rfl).1⟩

/-- C4: when the catalog call succeeds and `ValidateAssetResponse` returns an
error `v`, the handler returns `v` wrapped with the validation message, and the
pass record is not in its trace. -/
theorem handlers_wrap_validation_error {S : Sig} (g : Globals) (env : Env S)
    (file : S.File) (catalog : DataCatalog S) (v : Err S) :
    ((decodedGet env file).2 = none → (answerGet g env file catalog).2 = none →
        (verdictGet g env file catalog).1 = some v →
        (handleRead g env file catalog).1 =
          some (Err.wrap v "failed to validate the catalog connector response") ∧
        Event.logInfo "RESPONSE VALIDATION PASS" ∉ (handleRead g env file catalog).2) ∧
      ((decodedCreate env file).2 = none → (answerCreate g env file catalog).2 = none →
        (verdictCreate g env file catalog).1 = some v →
        (handleWrite g env file catalog).1 =
          some (Err.wrap v "failed to validate the catalog connector response") ∧
        Event.logInfo "RESPONSE VALIDATION PASS" ∉ (handleWrite g env file catalog).2) := by
  constructor
  · intro hu hr hv
    rw [handleRead_validate_fail g env file catalog v hu hr hv]
    refine ⟨rfl, ?_⟩
    simp [verdictGet, pass_not_mem_validate]
  · intro hu hr hv
    rw [handleWrite_validate_fail g env file catalog v hu hr hv]
    refine ⟨rfl, ?_⟩
    simp [verdictCreate, pass_not_mem_validate]

/-- C4 at a `get-asset` response with two violations and at a `create-asset`
response that cannot be serialized. -/
theorem handlers_wrap_validation_error_witness :
    (handleRead (demoGlobals "get-asset") (demoEnv okCatalog true [] "bad") 7 okCatalog).1 =
        some (Err.wrap (Err.invalid "app.fybrik.io" "infrastructure" ""
            ["name: Required value", "owner: Invalid type"])
          "failed to validate the catalog connector response") ∧
      (handleWrite (demoGlobals "create-asset")
          (demoEnv ⟨okCatalog.GetAssetInfo, fun _ _ => ("created:", none)⟩ true [] "q") 7
          ⟨okCatalog.GetAssetInfo, fun _ _ => ("created:", none)⟩).1 =
        some (Err.wrap (Err.external "unsupported value")
          "failed to validate the catalog connector response") :=
  ⟨((handlers_wrap_validation_error (demoGlobals "get-asset")
      (demoEnv okCatalog true [] "bad") 7 okCatalog
      (Err.invalid "app.fybrik.io" "infrastructure" ""
        ["name: Required value", "owner: Invalid type"])).1 rfl rfl rfl).1,
    ((handlers_wrap_validation_error (demoGlobals "create-asset")
      (demoEnv ⟨okCatalog.GetAssetInfo, fun _ _ => ("created:", none)⟩ true [] "q") 7
      ⟨okCatalog.GetAssetInfo, fun _ _ => ("created:", none)⟩
      (Err.external "unsupported value")).2 rfl rfl rfl).1⟩

/-- C8: a handler returns nil exactly when the request decodes, the catalog
operation answers without error and validation of that answer returns nil; and
the pass record is in the trace of exactly the runs that return nil. -/
theorem handlers_success_iff {S : Sig} (g : Globals) (env : Env S) (file : S.File)
    (catalog : DataCatalog S) :
    (((handleRead g env file catalog).1 = none ↔
          (decodedGet env file).2 = none ∧ (answerGet g env file catalog).2 = none ∧
            (verdictGet g env file catalog).1 = none) ∧
        (Event.logInfo "RESPONSE VALIDATION PASS" ∈ (handleRead g env file catalog).2 ↔
          (handleRead g env file catalog).1 = none)) ∧
      (((handleWrite g env file catalog).1 = none ↔
          (decodedCreate env file).2 = none ∧ (answerCreate g env file catalog).2 = none ∧
            (verdictCreate g env file catalog).1 = none) ∧
        (Event.logInfo "RESPONSE VALIDATION PASS" ∈ (handleWrite g env file catalog).2 ↔
          (handleWrite g env file catalog).1 = none)) := by
  constructor
  · cases hu : (decodedGet env file).2 with
    | some e => simp [handleRead_decode_fail g env file catalog e hu]
    | none =>
      cases hr : (answerGet g env file catalog).2 with
      | some e => simp [handleRead_catalog_fail g env file catalog e hu hr]
      | none =>
        cases hv : (verdictGet g env file catalog).1 with
        | some v =>
          simp [handleRead_validate_fail g env file catalog v hu hr hv, verdictGet,
            pass_not_mem_validate]
        | none => simp [handleRead_pass g env file catalog hu hr hv]
  · cases hu : (decodedCreate env file).2 with
    | some e => simp [handleWrite_decode_fail g env file catalog e hu]
    | none =>
      cases hr : (answerCreate g env file catalog).2 with
      | some e => simp [handleWrite_catalog_fail g env file catalog e hu hr]
      | none =>
        cases hv : (verdictCreate g env file catalog).1 with
        | some v =>
          simp [handleWrite_validate_fail g env file catalog v hu hr hv, verdictCreate,
            pass_not_mem_validate]
        | none => simp [handleWrite_pass g env file catalog hu hr hv]

/-- C3, at a connector that fails `CreateAsset` with `connection refused`:
`handleWrite` writes the phase message to the log and returns the bare error,
not the error wrapped with that message, while `handleRead` at the same
connector returns the wrapped error. Neither enters the validator. -/
theorem handleWrite_catalog_error_not_wrapped :
    handleWrite (demoGlobals "create-asset") (demoEnv downCatalog true [] "q") 7 downCatalog =
        (some (Err.external "connection refused"),
          [Event.readAll 7, Event.unmarshal "q",
            Event.createAsset "q" "/v1/kubernetes-secrets/my-secret?namespace=default",
            Event.logError (Err.external "connection refused")
              "failed to receive the catalog connector response"]) ∧
      (handleWrite (demoGlobals "create-asset") (demoEnv downCatalog true [] "q") 7
          downCatalog).1 ≠
        some (Err.wrap (Err.external "connection refused")
          "failed to receive the catalog connector response") ∧
      handleRead (demoGlobals "get-asset") (demoEnv downCatalog true [] "q") 7 downCatalog =
        (some (Err.wrap (Err.external "connection refused")
            "failed to receive the catalog connector response"),
          [Event.readAll 7, Event.unmarshal "q",
            Event.getAssetInfo "q" "/v1/kubernetes-secrets/my-secret?namespace=default"]) := by
  have hw : handleWrite (demoGlobals "create-asset") (demoEnv downCatalog true [] "q") 7
      downCatalog =
        (some (Err.external "connection refused"),
          [Event.readAll 7, Event.unmarshal "q",
            Event.createAsset "q" "/v1/kubernetes-secrets/my-secret?namespace=default",
            Event.logError (Err.external "connection refused")
              "failed to receive the catalog connector response"]) := rfl
  refine ⟨hw, ?_, rfl⟩
  rw [hw]
  simp

/-! ## The run -/

/-- C1 as written fails: with the operation `delete-asset`, a request file that
holds a payload and a catalog client that cannot be created, the run fails with
the client-creation error, not with the `Unsupported operation` error; and with
a request file that cannot be opened it fails with the file-open error. -/
theorem RunE_unsupported_counterexample :
    (demoGlobals "delete-asset").requestOperation ≠ "get-asset" ∧
      (demoGlobals "delete-asset").requestOperation ≠ "create-asset" ∧
      (RunE (demoGlobals "delete-asset")
          (demoEnv okCatalog false ["resources/read-request.json"] "q")).err =
        some (Err.wrap (Err.external "bad url") "unable to create data catalog facade") ∧
      (RunE (demoGlobals "delete-asset")
          (demoEnv okCatalog false ["resources/read-request.json"] "q")).err ≠
        some (Err.new "Unsupported operation") ∧
      (RunE (demoGlobals "delete-asset") (demoEnv okCatalog true [] "q")).err =
        some (Err.wrap (Err.external "no such file")
          "error opening resources/read-request.json") := by
  have hr : (RunE (demoGlobals "delete-asset")
      (demoEnv okCatalog false ["resources/read-request.json"] "q")).err =
      some (Err.wrap (Err.external "bad url") "unable to create data catalog facade") := rfl
  refine ⟨by decide, by decide, hr, ?_, rfl⟩
  rw [hr]
  simp

/-- C1 amended: for an operation name that is neither `get-asset` nor
`create-asset`, no run calls a catalog operation, and every run in which the
catalog client is created and the request file opens fails with the
`Unsupported operation` error. -/
theorem RunE_unsupported {S : Sig} (g : Globals) (env : Env S)
    (hget : g.requestOperation ≠ "get-asset")
    (hcreate : g.requestOperation ≠ "create-asset") :
    (∀ ev ∈ (RunE g env).trace, Event.isCatalogOp ev = false) ∧
      ((env.NewDataCatalog "egeria" g.catalogconnectorUrl).2 = none →
        (env.Open g.requestFile).2 = none →
        (RunE g env).err = some (Err.new "Unsupported operation")) := by
  constructor
  · intro ev hev
    cases hn : (env.NewDataCatalog "egeria" g.catalogconnectorUrl).2 with
    | some e =>
      rw [RunE_not_created g env e hn] at hev
      simp only [List.mem_singleton] at hev
      subst hev
      rfl
    | none =>
      cases ho : (env.Open g.requestFile).2 with
      | some e =>
        rw [RunE_not_opened g env e hn ho] at hev
        simp only [List.mem_cons, List.mem_singleton, List.not_mem_nil, or_false] at hev
        rcases hev with h | h | h <;> subst h <;> rfl
      | none =>
        rw [RunE_dispatched g env hn ho, dispatch_other g env _ _ hget hcreate] at hev
        simp only [List.append_nil, List.cons_append, List.nil_append, List.mem_cons,
          List.mem_singleton, List.not_mem_nil, or_false] at hev
        rcases hev with h | h | h | h | h <;> subst h <;> rfl
  · intro hn ho
    rw [RunE_dispatched g env hn ho, dispatch_other g env _ _ hget hcreate]

/-- C1 amended, at the operation `delete-asset` with the request file present. -/
theorem RunE_unsupported_witness :
    RunE (demoGlobals "delete-asset")
        (demoEnv okCatalog true ["resources/read-request.json"] "q") =
      ⟨some (Err.new "Unsupported operation"),
        [Event.newDataCatalog "egeria" "http://localhost:8080",
          Event.osOpen "resources/read-request.json",
          Event.logInfo "Successfully Opened resources/read-request.json",
          Event.fileClose, Event.catalogClose], ""⟩ ∧
      (RunE (demoGlobals "delete-asset")
        (demoEnv okCatalog true ["resources/read-request.json"] "q")).err =
        some (Err.new "Unsupported operation") :=
  ⟨rfl, (RunE_unsupported (demoGlobals "delete-asset")
    (demoEnv okCatalog true ["resources/read-request.json"] "q")
    (by decide) (by decide)).2 rfl rfl⟩

/-- C7 as written fails: when the catalog client cannot be created, the run
ends after the one call `NewDataCatalog` and `Close()` is not called. -/
theorem RunE_close_counterexample :
    RunE (demoGlobals "get-asset")
        (demoEnv okCatalog false ["resources/read-request.json"] "q") =
      ⟨some (Err.wrap (Err.external "bad url") "unable to create data catalog facade"),
        [Event.newDataCatalog "egeria" "http://localhost:8080"], ""⟩ ∧
      ((RunE (demoGlobals "get-asset")
        (demoEnv okCatalog false ["resources/read-request.json"] "q")).trace.filter
          Event.isCatalogClose).length ≠ 1 := by
  have hr : RunE (demoGlobals "get-asset")
      (demoEnv okCatalog false ["resources/read-request.json"] "q") =
      ⟨some (Err.wrap (Err.external "bad url") "unable to create data catalog facade"),
        [Event.newDataCatalog "egeria" "http://localhost:8080"], ""⟩ := rfl
  refine ⟨hr, ?_⟩
  rw [hr]
  simp [Event.isCatalogClose]

/-- C7 amended: in every run in which the catalog client is created, whatever
happens afterwards, `Close()` of the client is the last call of the run and is
called nowhere before; in a run in which the client cannot be created,
`Close()` is not called. -/
theorem RunE_close_once_last {S : Sig} (g : Globals) (env : Env S) :
    ((env.NewDataCatalog "egeria" g.catalogconnectorUrl).2 = none →
        ∃ init, (RunE g env).trace = init ++ [Event.catalogClose] ∧
          init.filter Event.isCatalogClose = []) ∧
      (∀ e, (env.NewDataCatalog "egeria" g.catalogconnectorUrl).2 = some e →
        (RunE g env).trace.filter Event.isCatalogClose = []) := by
  constructor
  · intro hn
    cases ho : (env.Open g.requestFile).2 with
    | some e =>
      rw [RunE_not_opened g env e hn ho]
      exact ⟨[Event.newDataCatalog "egeria" g.catalogconnectorUrl,
        Event.osOpen g.requestFile], rfl, rfl⟩
    | none =>
      rw [RunE_dispatched g env hn ho]
      refine ⟨[Event.newDataCatalog "egeria" g.catalogconnectorUrl,
        Event.osOpen g.requestFile,
        Event.logInfo ("Successfully Opened " ++ g.requestFile)] ++
        (dispatch g env (fileOf g env) (clientOf g env)).trace ++ [Event.fileClose], ?_, ?_⟩
      · simp
      · simp [Event.isCatalogClose, dispatch_filter_close]
  · intro e hn
    rw [RunE_not_created g env e hn]
    rfl

/-- C7 amended, at a run that passes, at a run whose request file is missing,
and at a run whose client cannot be created. -/
theorem RunE_close_once_last_witness :
    (∃ init, (RunE (demoGlobals "get-asset")
          (demoEnv okCatalog true ["resources/read-request.json"] "q")).trace =
        init ++ [Event.catalogClose] ∧ init.filter Event.isCatalogClose = []) ∧
      (RunE (demoGlobals "get-asset") (demoEnv okCatalog true [] "q")).trace =
        [Event.newDataCatalog "egeria" "http://localhost:8080",
          Event.osOpen "resources/read-request.json", Event.catalogClose] ∧
      (RunE (demoGlobals "get-asset") (demoEnv okCatalog false [] "q")).trace.filter
        Event.isCatalogClose = [] :=
  ⟨(RunE_close_once_last (demoGlobals "get-asset")
      (demoEnv okCatalog true ["resources/read-request.json"] "q")).1 rfl,
    rfl,
    (RunE_close_once_last (demoGlobals "get-asset") (demoEnv okCatalog false [] "q")).2
      (Err.external "bad url") rfl⟩

/-- C10: a handler calls a catalog operation at most once and enters the
validator at most once: the catalog operation exactly once when the request
decodes, the validator exactly once when the catalog operation answers without
error. The same bounds hold for a whole run. -/
theorem no_retries {S : Sig} (g : Globals) (env : Env S) (file : S.File)
    (catalog : DataCatalog S) :
    (((handleRead g env file catalog).2.filter Event.isCatalogOp).length ≤ 1 ∧
        ((handleRead g env file catalog).2.filter Event.isValidate).length ≤ 1 ∧
        ((decodedGet env file).2 = none →
          ((handleRead g env file catalog).2.filter Event.isCatalogOp).length = 1) ∧
        ((decodedGet env file).2 = none → (answerGet g env file catalog).2 = none →
          ((handleRead g env file catalog).2.filter Event.isValidate).length = 1)) ∧
      (((handleWrite g env file catalog).2.filter Event.isCatalogOp).length ≤ 1 ∧
        ((handleWrite g env file catalog).2.filter Event.isValidate).length ≤ 1 ∧
        ((decodedCreate env file).2 = none →
          ((handleWrite g env file catalog).2.filter Event.isCatalogOp).length = 1) ∧
        ((decodedCreate env file).2 = none → (answerCreate g env file catalog).2 = none →
          ((handleWrite g env file catalog).2.filter Event.isValidate).length = 1)) ∧
      (((RunE g env).trace.filter Event.isCatalogOp).length ≤ 1 ∧
        ((RunE g env).trace.filter Event.isValidate).length ≤ 1) := by
  refine ⟨⟨?_, ?_, ?_, ?_⟩, ⟨?_, ?_, ?_, ?_⟩, ?_⟩
  · rw [handleRead_catalog_calls]; split <;> simp
  · rw [handleRead_validate_calls]; split <;> simp
  · intro hu; rw [handleRead_catalog_calls]; simp [hu]
  · intro hu hr; rw [handleRead_validate_calls]; simp [hu, hr]
  · rw [handleWrite_catalog_calls]; split <;> simp
  · rw [handleWrite_validate_calls]; split <;> simp
  · intro hu; rw [handleWrite_catalog_calls]; simp [hu]
  · intro hu hr; rw [handleWrite_validate_calls]; simp [hu, hr]
  · cases hn : (env.NewDataCatalog "egeria" g.catalogconnectorUrl).2 with
    | some e => simp [RunE_not_created g env e hn, Event.isCatalogOp, Event.isValidate]
    | none =>
      cases ho : (env.Open g.requestFile).2 with
      | some e => simp [RunE_not_opened g env e hn ho, Event.isCatalogOp, Event.isValidate]
      | none =>
        have h := dispatch_calls_le_one g env (fileOf g env) (clientOf g env)
        simpa [RunE_dispatched g env hn ho, Event.isCatalogOp, Event.isValidate] using h

/-- C10 at a `get-asset` run that passes: one catalog call, one validation. -/
theorem no_retries_witness :
    ((handleRead (demoGlobals "get-asset") (demoEnv okCatalog true [] "q") 7
        okCatalog).2.filter Event.isCatalogOp).length = 1 ∧
      ((handleRead (demoGlobals "get-asset") (demoEnv okCatalog true [] "q") 7
        okCatalog).2.filter Event.isValidate).length = 1 ∧
      ((handleWrite (demoGlobals "create-asset") (demoEnv okCatalog true [] "q") 7
        okCatalog).2.filter Event.isCatalogOp).length = 1 ∧
      ((handleWrite (demoGlobals "create-asset") (demoEnv okCatalog true [] "q") 7
        okCatalog).2.filter Event.isValidate).length = 1 :=
  ⟨(no_retries (demoGlobals "get-asset") (demoEnv okCatalog true [] "q") 7 okCatalog).1.2.2.1
      rfl,
    (no_retries (demoGlobals "get-asset") (demoEnv okCatalog true [] "q") 7 okCatalog).1.2.2.2
      rfl rfl,
    (no_retries (demoGlobals "create-asset") (demoEnv okCatalog true [] "q") 7
      okCatalog).2.1.2.2.1 rfl,
    (no_retries (demoGlobals "create-asset") (demoEnv okCatalog true [] "q") 7
      okCatalog).2.1.2.2.2 rfl rfl⟩

/-- C9: in a run with operation `get-asset` no event is a call of
`CreateAsset`, every call of `GetAssetInfo` carries the credential path as it
is, every entry into the validator carries the taxonomy reference that ends in
`#/definitions/GetAssetResponse` and the response that a call of
`GetAssetInfo` in this run returned, and every taxonomy check uses that same
reference; and likewise for `create-asset` with `CreateAsset` and
`#/definitions/CreateAssetResponse`. -/
theorem RunE_no_mixing {S : Sig} (g : Globals) (env : Env S) :
    (g.requestOperation = "get-asset" → ∀ ev ∈ (RunE g env).trace,
        Event.isCreateAsset ev = false ∧
        (∀ req creds, ev = Event.getAssetInfo req creds → creds = g.credentialPath) ∧
        (∀ resp ref, ev = Event.validate resp ref →
          ref = DataCatalogGetAssetResponseTaxonomy ∧
          ∃ req, Event.getAssetInfo req g.credentialPath ∈ (RunE g env).trace ∧
            ((clientOf g env).GetAssetInfo req g.credentialPath).2 = none ∧
            resp = Response.getAsset
              ((clientOf g env).GetAssetInfo req g.credentialPath).1) ∧
        (∀ json ref, ev = Event.taxonomyCheck json ref →
          ref = DataCatalogGetAssetResponseTaxonomy)) ∧
      (g.requestOperation = "create-asset" → ∀ ev ∈ (RunE g env).trace,
        Event.isGetAssetInfo ev = false ∧
        (∀ req creds, ev = Event.createAsset req creds → creds = g.credentialPath) ∧
        (∀ resp ref, ev = Event.validate resp ref →
          ref = DataCatalogCreateAssetResponseTaxonomy ∧
          ∃ req, Event.createAsset req g.credentialPath ∈ (RunE g env).trace ∧
            ((clientOf g env).CreateAsset req g.credentialPath).2 = none ∧
            resp = Response.createAsset
              ((clientOf g env).CreateAsset req g.credentialPath).1) ∧
        (∀ json ref, ev = Event.taxonomyCheck json ref →
          ref = DataCatalogCreateAssetResponseTaxonomy)) ∧
      DataCatalogGetAssetResponseTaxonomy =
        "resources/taxonomy/datacatalog.json" ++ "#/definitions/GetAssetResponse" ∧
      DataCatalogCreateAssetResponseTaxonomy =
        "resources/taxonomy/datacatalog.json" ++ "#/definitions/CreateAssetResponse" := by
  refine ⟨?_, ?_, by decide, by decide⟩
  · intro hop ev hev
    cases hn : (env.NewDataCatalog "egeria" g.catalogconnectorUrl).2 with
    | some e =>
      rw [RunE_not_created g env e hn] at hev
      simp only [List.mem_singleton] at hev
      subst hev
      simp [Event.isCreateAsset]
    | none =>
      cases ho : (env.Open g.requestFile).2 with
      | some e =>
        rw [RunE_not_opened g env e hn ho] at hev
        simp only [List.mem_cons, List.mem_singleton, List.not_mem_nil, or_false] at hev
        rcases hev with h | h | h <;> subst h <;> simp [Event.isCreateAsset]
      | none =>
        rw [RunE_dispatched g env hn ho, dispatch_get g env _ _ hop] at hev ⊢
        simp only [List.mem_append, List.mem_cons, List.mem_singleton, List.not_mem_nil,
          or_false] at hev
        rcases hev with ((h | h | h) | h) | h | h
        · subst h; simp [Event.isCreateAsset]
        · subst h; simp [Event.isCreateAsset]
        · subst h; simp [Event.isCreateAsset]
        · obtain ⟨h1, h2, h3, h4⟩ := handleRead_events g env _ _ ev h
          refine ⟨h1, fun req creds hq => (h2 req creds hq).2, ?_, h4⟩
          intro resp ref hq
          obtain ⟨hresp, href, hans, hmem⟩ := h3 resp ref hq
          refine ⟨href, (decodedGet env (fileOf g env)).1, ?_, hans, hresp⟩
          simp [hmem]
        · subst h; simp [Event.isCreateAsset]
        · subst h; simp [Event.isCreateAsset]
  · intro hop ev hev
    cases hn : (env.NewDataCatalog "egeria" g.catalogconnectorUrl).2 with
    | some e =>
      rw [RunE_not_created g env e hn] at hev
      simp only [List.mem_singleton] at hev
      subst hev
      simp [Event.isGetAssetInfo]
    | none =>
      cases ho : (env.Open g.requestFile).2 with
      | some e =>
        rw [RunE_not_opened g env e hn ho] at hev
        simp only [List.mem_cons, List.mem_singleton, List.not_mem_nil, or_false] at hev
        rcases hev with h | h | h <;> subst h <;> simp [Event.isGetAssetInfo]
      | none =>
        rw [RunE_dispatched g env hn ho, dispatch_create g env _ _ hop] at hev ⊢
        simp only [List.mem_append, List.mem_cons, List.mem_singleton, List.not_mem_nil,
          or_false] at hev
        rcases hev with ((h | h | h) | h) | h | h
        · subst h; simp [Event.isGetAssetInfo]
        · subst h; simp [Event.isGetAssetInfo]
        · subst h; simp [Event.isGetAssetInfo]
        · obtain ⟨h1, h2, h3, h4⟩ := handleWrite_events g env _ _ ev h
          refine ⟨h1, fun req creds hq => (h2 req creds hq).2, ?_, h4⟩
          intro resp ref hq
          obtain ⟨hresp, href, hans, hmem⟩ := h3 resp ref hq
          refine ⟨href, (decodedCreate env (fileOf g env)).1, ?_, hans, hresp⟩
          simp [hmem]
        · subst h; simp [Event.isGetAssetInfo]
        · subst h; simp [Event.isGetAssetInfo]

/-- C9 at a passing `get-asset` run: the whole trace, and the facts of C9 read
off its validator entry. -/
theorem RunE_no_mixing_witness :
    (RunE (demoGlobals "get-asset")
        (demoEnv okCatalog true ["resources/read-request.json"] "q")).trace =
      [Event.newDataCatalog "egeria" "http://localhost:8080",
        Event.osOpen "resources/read-request.json",
        Event.logInfo "Successfully Opened resources/read-request.json",
        Event.readAll 7, Event.unmarshal "q",
        Event.getAssetInfo "q" "/v1/kubernetes-secrets/my-secret?namespace=default",
        Event.validate (Response.getAsset "asset:q") DataCatalogGetAssetResponseTaxonomy,
        Event.marshal (Response.getAsset "asset:q"),
        Event.logInfo "responseJSON:asset:q",
        Event.taxonomyCheck "asset:q" DataCatalogGetAssetResponseTaxonomy,
        Event.logInfo "RESPONSE VALIDATION PASS",
        Event.fileClose, Event.catalogClose] ∧
      (∀ creds, Event.getAssetInfo "q" creds ∈ (RunE (demoGlobals "get-asset")
          (demoEnv okCatalog true ["resources/read-request.json"] "q")).trace →
        creds = "/v1/kubernetes-secrets/my-secret?namespace=default") :=
  ⟨rfl, fun creds h =>
    ((RunE_no_mixing (demoGlobals "get-asset")
      (demoEnv okCatalog true ["resources/read-request.json"] "q")).1 rfl _ h).2.1
      "q" creds rfl⟩

end CatalogConnectorClient
